import Mathlib

/-!
Verification of the AML risk-scoring engine (antiriciclaggio.py).

The Python source is shallowly embedded over exact rationals (`ℚ` stands
for Python floats; all values appearing in the claims are exact decimals)
and Lean `String`s.  Configuration loaded from JSON (registries, keyword
tables, service baselines, section definitions) is modelled as an
explicit `Env` record; widget state read by `valuta_rischio` is modelled
as a `UIState` snapshot record.  Python's `round(x, n)` (round half to
even) is modelled by `pyRound`.
-/

namespace AML

/-! ### Python rounding on ℚ -/

/-- Round half to even of a rational to an integer, Python's `round`. -/
def rhe (q : ℚ) : ℤ :=
  if q - ⌊q⌋ < 1/2 then ⌊q⌋
  else if (1:ℚ)/2 < q - ⌊q⌋ then ⌊q⌋ + 1
  else if ⌊q⌋ % 2 = 0 then ⌊q⌋ else ⌊q⌋ + 1

/-- Python's `round(q, n)` on exact decimals. -/
def pyRound (n : ℕ) (q : ℚ) : ℚ :=
  (rhe (q * (10:ℚ)^n) : ℚ) / (10:ℚ)^n

/-! ### String helpers (Python `lower`, `strip`, `in`, `title`) -/

/-- Test whether the first list is an initial segment of the second. -/
def isStartOf : List Char → List Char → Bool
  | [], _ => true
  | _ :: _, [] => false
  | a :: as, b :: bs => a == b && isStartOf as bs

/-- Substring occurrence on character lists. -/
def hasSubChars (needle : List Char) : List Char → Bool
  | [] => needle.isEmpty
  | c :: t => isStartOf needle (c :: t) || hasSubChars needle t

/-- Python's `needle in hay` on strings. -/
def hasSub (needle hay : String) : Bool :=
  hasSubChars needle.toList hay.toList

/-- Python's `str.lower()` (character-wise). -/
def lowerStr (s : String) : String :=
  ⟨s.toList.map Char.toLower⟩

/-- Drop whitespace from both ends of a character list. -/
def trimChars (l : List Char) : List Char :=
  ((l.dropWhile Char.isWhitespace).reverse.dropWhile Char.isWhitespace).reverse

/-- Python's `str.strip()`. -/
def trimStr (s : String) : String :=
  ⟨trimChars s.toList⟩

/-- Python's `str.startswith`. -/
def startsWithStr (p s : String) : Bool :=
  isStartOf p.toList s.toList

/-- Title-casing of a character list; the boolean tracks whether the
previous character was alphabetic. -/
def titleChars : Bool → List Char → List Char
  | _, [] => []
  | prevAlpha, c :: cs =>
      (if c.isAlpha then (if prevAlpha then c.toLower else c.toUpper) else c)
        :: titleChars c.isAlpha cs

/-- Python's `str.title()`. -/
def titleStr (s : String) : String :=
  ⟨titleChars false s.toList⟩

/-! ### Configuration environment (JSON config files, loaded once) -/

/-- Immutable configuration snapshot: legal-entity registry
(name, level, descriptor), the four keyword lists (levels 1–4), the
client-registry list, manual fallback categories, the combined
province/country risk map, service baselines, the table-A-only flag set,
and the manual factor-section definitions for groups A and B. -/
structure Env where
  database : List (String × ℕ × String)
  keywords1 : List String
  keywords2 : List String
  keywords3 : List String
  keywords4 : List String
  clientiStudio : List String
  categorieManuali : List (String × ℕ)
  luoghi : List (String × ℕ)
  prestazioniVeda : List (String × ℕ)
  prestazioniSoloA : List String
  sectionsAManualDef : List (String × List String)
  sectionsBManualDef : List (String × List String)
deriving DecidableEq

/-- Keyword table in its iteration order, keys 1 → 4. -/
def keywordLevels (env : Env) : List (ℕ × List String) :=
  [(1, env.keywords1), (2, env.keywords2), (3, env.keywords3), (4, env.keywords4)]

/-! ### RiskCalculator -/

/-- Manual section state: factor check-boxes (`vars`) and the level
dropdowns (`level_vars`), as mutated by the user before evaluation. -/
structure SectionState where
  name : String
  factors : List String
  vars : List Bool
  levelVars : List ℕ
deriving DecidableEq

/-- Automatically computed section: `(name, value-descriptor, level)`. -/
structure AutoSection where
  name : String
  value : String
  level : ℕ
deriving DecidableEq

/-- `RiskCalculator.calcola_media_sezione`: mean of the levels of the
checked factors rounded to one decimal, `0.0` when none is checked. -/
def calcolaMediaSezione (s : SectionState) : ℚ :=
  let selectedLevels := ((s.vars.zip s.levelVars).filter (·.1)).map (·.2)
  if selectedLevels.isEmpty then 0
  else pyRound 1 (((selectedLevels.map (Nat.cast)).sum : ℚ) / selectedLevels.length)

/-- `RiskCalculator.calcola_totale_sezioni`: automatic section levels
followed by manual section averages; the total is their sum. -/
def calcolaTotaleSezioni (sections : List SectionState) (autoSections : List AutoSection) :
    ℚ × List ℚ :=
  let autoMedias := autoSections.map (fun sec => (sec.level : ℚ))
  let manualMedias := sections.map calcolaMediaSezione
  (autoMedias.sum + manualMedias.sum, autoMedias ++ manualMedias)

/-- `RiskCalculator.calcola_livello_rischio`: band mapping with
inclusive upper bounds 2.5 and 3.5. -/
def calcolaLivelloRischio (somma : ℚ) : String :=
  if somma ≤ 5/2 then "BASSO/POCO SIGNIFICATIVO - Adeguata Verifica Semplificata"
  else if somma ≤ 7/2 then "ABBASTANZA SIGNIFICATIVO - Adeguata Verifica Ordinaria"
  else "MOLTO SIGNIFICATIVO - Adeguata Verifica Rafforzata"

/-- `RiskCalculator.calcola_livello_da_importo`: amount-derived level. -/
def calcolaLivelloDaImporto (importo : ℚ) : ℕ :=
  if importo < 50000 then 1
  else if importo < 250000 then 2
  else if importo < 1000000 then 3
  else 4

/-- `RiskCalculator.get_livello_paese`: title-case the trimmed place and
look it up in the combined map, `0` (unset sentinel) when absent. -/
def getLivelloPaese (env : Env) (paese : String) : ℕ :=
  match env.luoghi.find? (fun p => p.1 == titleStr (trimStr paese)) with
  | some p => p.2
  | none => 0

/-! ### Entity search (`cerca_natura_giuridica`) -/

/-- Search result tuple `(nome, livello, descrizione, is_cliente_studio)`. -/
structure NaturaResult where
  nome : String
  livello : Option ℕ
  descrizione : String
  isClienteStudio : Bool
deriving DecidableEq

/-- Generic category names for the keyword fallback tier. -/
def tipoGenerico : ℕ → String
  | 1 => "Soggetto vigilato / Grande azienda"
  | 2 => "Media impresa / Studio professionale"
  | 3 => "PMI / Piccola società"
  | 4 => "Alto rischio / Trust / Offshore"
  | _ => ""

/-- Sort key component `x[1] if x[1] else 999` (Python truthiness:
`None` and `0` both map to 999). -/
def levelKey : Option ℕ → ℕ
  | none => 999
  | some l => if l = 0 then 999 else l

/-- Strict comparison by the Python sort key
`(is_cliente_studio, livello-or-999, nome)`. -/
def keyLtNatura (a b : NaturaResult) : Bool :=
  if a.isClienteStudio = b.isClienteStudio then
    if levelKey a.livello = levelKey b.livello then decide (a.nome < b.nome)
    else decide (levelKey a.livello < levelKey b.livello)
  else (!a.isClienteStudio && b.isClienteStudio)

/-- Stable insertion: an element goes after every strictly smaller one
and after earlier elements with an equal key. -/
def insertSorted (lt : α → α → Bool) (a : α) : List α → List α
  | [] => [a]
  | b :: bs => if lt b a then b :: insertSorted lt a bs else a :: b :: bs

/-- Stable ascending sort, modelling Python's `list.sort(key=...)`. -/
def sortByLt (lt : α → α → Bool) : List α → List α
  | [] => []
  | a :: as => insertSorted lt a (sortByLt lt as)

/-- `RiskCalculator.cerca_natura_giuridica`, translated loop by loop:
registry tier, client-registry tier, keyword fallback with its double
`break`, then sort and truncate to 10. -/
def cercaNaturaGiuridica (env : Env) (testo : String) : List NaturaResult :=
  let testoLower := trimStr (lowerStr testo)
  if testoLower.length < 2 then []
  else
    let r1 := env.database.foldl
      (fun acc e =>
        if hasSub testoLower (lowerStr e.1) then acc ++ [⟨e.1, some e.2.1, e.2.2, false⟩]
        else acc) []
    let r2 := env.clientiStudio.foldl
      (fun acc c =>
        if hasSub testoLower (lowerStr c) then acc ++ [⟨c, none, "Cliente studio", true⟩]
        else acc) r1
    let r3 :=
      if r2.isEmpty then
        match (keywordLevels env).find? (fun p => p.2.any (fun kw => hasSub kw testoLower)) with
        | some p => [⟨"Categoria: " ++ tipoGenerico p.1, some p.1, tipoGenerico p.1, false⟩]
        | none => []
      else r2
    (sortByLt keyLtNatura r3).take 10

/-- Registry tier of `searchNature`, stated as in the specification:
registry entries whose name contains the query substring. -/
def registryMatchesSpec (env : Env) (q : String) : List NaturaResult :=
  (env.database.filter (fun e => hasSub q (lowerStr e.1))).map
    (fun e => ⟨e.1, some e.2.1, e.2.2, false⟩)

/-- Client-registry tier of `searchNature`, stated as in the
specification: client names containing the query, with no level. -/
def clientMatchesSpec (env : Env) (q : String) : List NaturaResult :=
  (env.clientiStudio.filter (fun c => hasSub q (lowerStr c))).map
    (fun c => ⟨c, none, "Cliente studio", true⟩)

/-- Keyword fallback tier of `searchNature`, stated as in the
specification: iterate levels 1→4, the first level owning a keyword that
occurs inside the query yields one synthetic suggestion. -/
def keywordFallbackSpec (env : Env) (q : String) : List NaturaResult :=
  match (keywordLevels env).find? (fun p => p.2.any (fun kw => hasSub kw q)) with
  | some p => [⟨"Categoria: " ++ tipoGenerico p.1, some p.1, tipoGenerico p.1, false⟩]
  | none => []

/-- `searchNature` as the specification words it: a sub-2-character
trimmed case-folded query gives no result; otherwise the registry and
client-registry tiers are both evaluated and merged, the keyword tier
applies only when that merge is empty, and the outcome is key-sorted and
truncated to 10. -/
def searchNatureSpec (env : Env) (testo : String) : List NaturaResult :=
  let q := trimStr (lowerStr testo)
  if q.length < 2 then []
  else
    let tier12 := registryMatchesSpec env q ++ clientMatchesSpec env q
    let res := if tier12.isEmpty then keywordFallbackSpec env q else tier12
    (sortByLt keyLtNatura res).take 10

/-! ### Widget-state snapshot consumed by `valuta_rischio` -/

/-- Snapshot of every widget read during one evaluation.  The amount
entry is modelled after `float` parsing: `none` when the field is empty
(the `ValueError` path for unparsable text is outside the claims).  The
`a1ManualVars`/`a1ManualLevelVars` fields are the A.1 "fattori
soggettivi" group kept in `self.a1_manual_factors`. -/
structure UIState where
  entryData : String
  entryCliente : String
  entryTitolare : String
  textScopo : String
  textAttivita : String
  entryAvvocato : String
  comboPrestazione : String
  entryImporto : Option ℚ
  entryNaturaGiuridica : String
  comboNaturaFallback : String
  entryAreaCliente : String
  entryAreaDestinazione : String
  checkB3Incongruo : Bool
  checkB3Frazionamenti : Bool
  checkB3Altro : Bool
  sectionVarsAManual : List SectionState
  sectionVarsBManual : List SectionState
  a1ManualVars : List Bool
  a1ManualLevelVars : List ℕ
deriving DecidableEq

/-- Manual A-section panels built by `_create_section_panel_A`: every
configured A-section except those whose name contains `"A.1"`, with
check-boxes initially false and level dropdowns initially 1. -/
def createSectionPanelA (env : Env) : List SectionState :=
  env.sectionsAManualDef.foldl
    (fun acc d =>
      if hasSub "A.1" d.1 then acc
      else acc ++ [⟨d.1, d.2, d.2.map (fun _ => false), d.2.map (fun _ => 1)⟩]) []

/-- A.1 factor group picked by `_create_natura_giuridica_section`: the
first configured A-section whose name starts with `"A.1"`. -/
def a1ManualGroupDef (env : Env) : Option (String × List String) :=
  env.sectionsAManualDef.find? (fun d => startsWithStr "A.1" d.1)

/-! ### Automatic sections (`_get_automatic_sections_A` / `_B`) -/

/-- First assignment of `(natura_level, descrizione)` in
`_get_automatic_sections_A`: first registry entry whose lowered name is
contained in the lowered typed text. -/
def naturaD0 (env : Env) (naturaText : String) : ℕ × String :=
  match env.database.find? (fun e => hasSub (lowerStr e.1) (lowerStr naturaText)) with
  | some e => (e.2.1, e.2.2)
  | none => (0, "")

/-- Keyword fallback of `_get_automatic_sections_A`: runs only while the
level is still 0; the descriptor is left unchanged. -/
def naturaD1 (env : Env) (naturaText : String) : ℕ × String :=
  if (naturaD0 env naturaText).1 = 0 then
    match (keywordLevels env).find?
        (fun p => p.2.any (fun kw => hasSub kw (lowerStr naturaText))) with
    | some p => (p.1, (naturaD0 env naturaText).2)
    | none => naturaD0 env naturaText
  else naturaD0 env naturaText

/-- Manual fallback category of `_get_automatic_sections_A`: used only
while the level is still 0 and a category is selected (lookup default 3,
descriptor cleared). -/
def naturaD2 (env : Env) (naturaText fallbackCat : String) : ℕ × String :=
  if (naturaD1 env naturaText).1 = 0 ∧ fallbackCat ≠ "" then
    (((env.categorieManuali.find? (fun c => c.1 == fallbackCat)).map (·.2)).getD 3, "")
  else naturaD1 env naturaText

/-- Final `(natura_level, descrizione)`: level 3 with the
verify-manually descriptor when everything above left 0. -/
def naturaLevelDesc (env : Env) (naturaText fallbackCat : String) : ℕ × String :=
  if (naturaD2 env naturaText fallbackCat).1 = 0 then
    (3, "Livello default - verificare manualmente")
  else naturaD2 env naturaText fallbackCat

/-- `_get_automatic_sections_A`: the A.1 entity section and the A.4
client-geography section (empty or unmatched geography scores 1). -/
def getAutomaticSectionsA (env : Env) (s : UIState) : List AutoSection :=
  let naturaText := trimStr s.entryNaturaGiuridica
  let nd := naturaLevelDesc env naturaText s.comboNaturaFallback
  let valueText := if nd.2 ≠ "" then naturaText ++ " (" ++ nd.2 ++ ")" else naturaText
  let a1 : AutoSection := ⟨"A.1 - Natura giuridica", valueText, nd.1⟩
  let areaCliente := trimStr s.entryAreaCliente
  let a4 : AutoSection :=
    if areaCliente ≠ "" then
      ⟨"A.4 - Area geografica cliente", areaCliente,
        if getLivelloPaese env areaCliente = 0 then 1 else getLivelloPaese env areaCliente⟩
    else ⟨"A.4 - Area geografica cliente", "Non specificato", 1⟩
  [a1, a4]

/-- Amount band descriptions used in the B.3 value text. -/
def fasciaText : ℕ → String
  | 1 => "< €50.000"
  | 2 => "€50.000 - €250.000"
  | 3 => "€250.000 - €1.000.000"
  | 4 => "> €1.000.000"
  | _ => ""

/-- `_get_automatic_sections_B`: the B.3 amount section (base level only;
the aggravating check-boxes are not read) and the B.6 destination
geography section.  The thousands-formatted amount inside the B.3 value
string is elided; the band text is kept. -/
def getAutomaticSectionsB (env : Env) (s : UIState) : List AutoSection :=
  let b3 : AutoSection :=
    match s.entryImporto with
    | some importo =>
        ⟨"B.3 - Ammontare operazione",
          "€ (" ++ fasciaText (calcolaLivelloDaImporto importo) ++ ")",
          calcolaLivelloDaImporto importo⟩
    | none => ⟨"B.3 - Ammontare operazione", "Non specificato", 0⟩
  let areaDest := trimStr s.entryAreaDestinazione
  let b6 : AutoSection :=
    if areaDest ≠ "" then
      ⟨"B.6 - Area geografica destinazione", areaDest,
        if getLivelloPaese env areaDest = 0 then 1 else getLivelloPaese env areaDest⟩
    else ⟨"B.6 - Area geografica destinazione", "Non specificato", 1⟩
  [b3, b6]

/-- `_aggiorna_b3_livello_finale`: the displayed B.3 final level,
`min(base + aggravanti, 4)`; `none` when no amount is entered. -/
def b3LivelloFinale (s : UIState) : Option ℕ :=
  match s.entryImporto with
  | none => none
  | some importo =>
      let livelloBase := calcolaLivelloDaImporto importo
      let aggravanti := (if s.checkB3Incongruo then 1 else 0)
        + (if s.checkB3Frazionamenti then 1 else 0)
        + (if s.checkB3Altro then 1 else 0)
      some (min (livelloBase + aggravanti) 4)

/-! ### Risk composition (`valuta_rischio`, lines 2208–2242) -/

/-- Every numeric result produced by one evaluation. -/
structure Scores where
  rischioInerente : ℕ
  usaSoloTabellaA : Bool
  sectionsAAuto : List AutoSection
  sectionsBAuto : List AutoSection
  totalA : ℚ
  totalB : ℚ
  subMediasA : List ℚ
  subMediasB : List ℚ
  numFattoriA : ℕ
  rischioSpecifico : ℚ
  inerentePonderato : ℚ
  specificoPonderato : ℚ
  somma : ℚ
  livello : String
deriving DecidableEq

/-- Shared tail of both aggregation branches: the two weighted terms are
rounded separately and their sum rounded again (lines 2239–2242). -/
def mkScores (ri : ℕ) (solo : Bool) (aAuto bAuto : List AutoSection)
    (tA tB : ℚ) (subA subB : List ℚ) (nfa : ℕ) (rs : ℚ) : Scores :=
  let ip := pyRound 2 ((ri : ℚ) * (3/10))
  let sp := pyRound 2 (rs * (7/10))
  let so := pyRound 2 (ip + sp)
  ⟨ri, solo, aAuto, bAuto, tA, tB, subA, subB, nfa, rs, ip, sp, so,
    calcolaLivelloRischio so⟩

/-- Whether the selected service is in the table-A-only flag set. -/
def usaSoloTabellaA (env : Env) (s : UIState) : Bool :=
  env.prestazioniSoloA.contains s.comboPrestazione

/-- Pure score computation of `valuta_rischio`: baseline lookup
(default 2), mode selection, aggregation of both groups, and the two
divisor rules — `(totalA + totalB) / 10` in standard mode,
`totalA / (auto A-sections + manual A-sections)` in table-A-only mode,
where no Section-B evaluation happens at all. -/
def computeScores (env : Env) (s : UIState) : Scores :=
  let rischioInerente :=
    ((env.prestazioniVeda.find? (fun p => p.1 == s.comboPrestazione)).map (·.2)).getD 2
  let sectionsAAuto := getAutomaticSectionsA env s
  let resA := calcolaTotaleSezioni s.sectionVarsAManual sectionsAAuto
  if usaSoloTabellaA env s then
    let numFattoriA := sectionsAAuto.length + s.sectionVarsAManual.length
    mkScores rischioInerente true sectionsAAuto [] resA.1 0 resA.2 [] numFattoriA
      (pyRound 2 (resA.1 / (numFattoriA : ℚ)))
  else
    let sectionsBAuto := getAutomaticSectionsB env s
    let resB := calcolaTotaleSezioni s.sectionVarsBManual sectionsBAuto
    mkScores rischioInerente false sectionsAAuto sectionsBAuto resA.1 resB.1 resA.2 resB.2 0
      (pyRound 2 ((resA.1 + resB.1) / 10))

/-! ### Escalation gate (`_mostra_dialog_rischio_rafforzato`) -/

/-- Acceptance record returned by the escalation dialog (the wall-clock
timestamp string is elided). -/
structure DichiarazioneRafforzata where
  accepted : Bool
  sommaPonderata : ℚ
  livello : String
deriving DecidableEq

/-- User interactions available on the modal escalation dialog.  Closing
via the window X runs the same cancellation path as the cancel button
(`on_closing` calls `annulla`); the boolean carries the answer to the
respective confirmation prompt (the acceptance checkbox for confirm,
the are-you-sure prompt for cancel/close). -/
inductive GateEvent where
  | confermaClick (checkboxChecked : Bool)
  | annullaClick (confirmYes : Bool)
  | chiusuraX (confirmYes : Bool)
deriving DecidableEq

/-- Escalation gate states: the dialog is pending until a terminal
confirm or a confirmed cancellation. -/
inductive GateState where
  | pending
  | accepted
  | aborted
deriving DecidableEq

/-- One dialog interaction.  A confirm without the acceptance checkbox
only shows a warning; a cancellation or window close answered "no" at
the confirmation prompt leaves the dialog open.  Terminal states absorb
(the dialog is already destroyed). -/
def gateStep : GateState → GateEvent → GateState
  | .pending, .confermaClick true => .accepted
  | .pending, .confermaClick false => .pending
  | .pending, .annullaClick c => if c then .aborted else .pending
  | .pending, .chiusuraX c => if c then .aborted else .pending
  | st, _ => st

/-- Gate evolution over a whole interaction trace. -/
def runGate (st : GateState) (events : List GateEvent) : GateState :=
  events.foldl gateStep st

/-- `_mostra_dialog_rischio_rafforzato` as a function of the interaction
trace: a declaration with `accepted = true` when the gate reaches
`accepted`, otherwise `none` (aborted, or still pending — the modal has
not returned and nothing is finalized). -/
def mostraDialogRischioRafforzato (somma : ℚ) (livello : String)
    (events : List GateEvent) : Option DichiarazioneRafforzata :=
  match runGate .pending events with
  | .accepted => some ⟨true, somma, livello⟩
  | _ => none

/-! ### `valuta_rischio` end to end -/

/-- Exportable evaluation result stored in `self.dati_export`. -/
structure DatiExport where
  dataValutazione : String
  cliente : String
  scores : Scores
  dichiarazioneRafforzata : Option DichiarazioneRafforzata
deriving DecidableEq

/-- `valuta_rischio`: validation of date and client name, score
computation, and the escalation gate for `somma > 3.5`; `none` means no
exportable result was stored (validation failure, abort, or a gate still
pending). -/
def valutaRischio (env : Env) (s : UIState) (events : List GateEvent) :
    Option DatiExport :=
  if trimStr s.entryData = "" then none
  else if trimStr s.entryCliente = "" then none
  else if (computeScores env s).somma > 7/2 then
    match mostraDialogRischioRafforzato (computeScores env s).somma
        (computeScores env s).livello events with
    | none => none
    | some dich =>
        some ⟨trimStr s.entryData, trimStr s.entryCliente, computeScores env s, some dich⟩
  else some ⟨trimStr s.entryData, trimStr s.entryCliente, computeScores env s, none⟩

/-! ### Concrete fixtures used by the witnesses -/

/-- Small concrete configuration: one level-4 registry entry, two
places, one standard service (baseline 3) and one table-A-only service
(baseline 4), and one A.1 plus one A.2 manual section definition. -/
def envW : Env :=
  { database := [("Trust Co", 4, "Trust ad alto rischio")],
    keywords1 := [], keywords2 := [], keywords3 := [], keywords4 := [],
    clientiStudio := [], categorieManuali := [],
    luoghi := [("Roma", 4), ("Parigi", 2)],
    prestazioniVeda := [("Consulenza", 3), ("Tenuta contabilita", 4)],
    prestazioniSoloA := ["Tenuta contabilita"],
    sectionsAManualDef := [("A.1 - Natura giuridica", ["f1"]), ("A.2 - Comportamento", ["f2"])],
    sectionsBManualDef := [] }

/-- Blank widget snapshot. -/
def uiBlank : UIState :=
  { entryData := "", entryCliente := "", entryTitolare := "", textScopo := "",
    textAttivita := "", entryAvvocato := "", comboPrestazione := "",
    entryImporto := none, entryNaturaGiuridica := "", comboNaturaFallback := "",
    entryAreaCliente := "", entryAreaDestinazione := "",
    checkB3Incongruo := false, checkB3Frazionamenti := false, checkB3Altro := false,
    sectionVarsAManual := [], sectionVarsBManual := [],
    a1ManualVars := [], a1ManualLevelVars := [] }

/-- Filled snapshot: standard-mode service (baseline 3), entity text
matching the level-4 registry entry, level-4 client geography, amount
2000000 and level-2 destination geography — totals 8.0 and 6.0. -/
def uiW : UIState :=
  { uiBlank with
    entryData := "01/01/2026", entryCliente := "ACME",
    comboPrestazione := "Consulenza", entryImporto := some 2000000,
    entryNaturaGiuridica := "Trust Co Srl", entryAreaCliente := "Roma",
    entryAreaDestinazione := "Parigi" }

/-- Same snapshot with the table-A-only service selected
(weighted sum 4.0, above the escalation threshold). -/
def uiSolo : UIState := { uiW with comboPrestazione := "Tenuta contabilita" }

/-- Table-A-only snapshot whose manual A-panels are exactly the built
panel list. -/
def uiSoloM : UIState := { uiSolo with sectionVarsAManual := createSectionPanelA envW }

/-- Snapshot with amount 80000 and no aggravating check-box set. -/
def uiB3 : UIState :=
  { uiBlank with
    entryData := "01/01/2026", entryCliente := "ACME",
    entryImporto := some 80000 }

/-! ### General lemmas -/

theorem rhe_intCast (z : ℤ) : rhe (z : ℚ) = z := by
  unfold rhe
  norm_num

theorem rhe_even_add (m : ℤ) (hm : m % 2 = 0) (x : ℚ) :
    rhe ((m : ℚ) + x) = m + rhe x := by
  unfold rhe
  have hfl : ⌊(m:ℚ) + x⌋ = ⌊x⌋ + m := by
    rw [add_comm]; exact Int.floor_add_int x m
  rw [hfl]
  have hsub : ((m:ℚ) + x) - ((⌊x⌋ + m : ℤ) : ℚ) = x - (⌊x⌋ : ℚ) := by
    push_cast; ring
  rw [hsub]
  split_ifs with h1 h2 h3 h4 h5 <;> omega

theorem pyRound_two_cast_div100 (z : ℤ) : pyRound 2 ((z : ℚ) / 100) = (z : ℚ) / 100 := by
  unfold pyRound
  have h : ((z:ℚ)/100) * (10:ℚ)^2 = (z:ℚ) := by norm_num
  rw [h, rhe_intCast]
  norm_num

theorem pyRound_two_idem (q : ℚ) : pyRound 2 (pyRound 2 q) = pyRound 2 q := by
  have h : pyRound 2 q = ((rhe (q * (10:ℚ)^2) : ℚ)) / 100 := by
    unfold pyRound; norm_num
  rw [h, pyRound_two_cast_div100]

theorem pyRound_two_even_cent_add (m : ℤ) (hm : m % 2 = 0) (x : ℚ) :
    pyRound 2 ((m : ℚ) / 100 + x) = (m : ℚ) / 100 + pyRound 2 x := by
  unfold pyRound
  have h : ((m:ℚ)/100 + x) * (10:ℚ)^2 = (m:ℚ) + x * (10:ℚ)^2 := by
    field_simp
    ring
  rw [h, rhe_even_add m hm]
  push_cast
  ring

/-- Stepwise rounding `round(round(ri*0.3,2) + round(rs*0.7,2), 2)` agrees
with the one-shot `round(ri*0.3 + rs*0.7, 2)`: `ri*0.3` is an exact even
number of hundredths. -/
theorem somma_round_eq (ri : ℕ) (rs : ℚ) :
    pyRound 2 (pyRound 2 ((ri : ℚ) * (3/10)) + pyRound 2 (rs * (7/10))) =
      pyRound 2 ((ri : ℚ) * (3/10) + rs * (7/10)) := by
  have hcast : (ri : ℚ) * (3/10) = ((30 * (ri : ℤ) : ℤ) : ℚ) / 100 := by push_cast; ring
  have heven : (30 * (ri : ℤ)) % 2 = 0 := by omega
  rw [hcast, pyRound_two_cast_div100, pyRound_two_even_cent_add _ heven,
    pyRound_two_even_cent_add _ heven, pyRound_two_idem]

theorem foldl_if_append (p : α → Bool) (g : α → β) (l : List α) (acc : List β) :
    l.foldl (fun a x => if p x then a ++ [g x] else a) acc = acc ++ (l.filter p).map g := by
  induction l generalizing acc with
  | nil => simp
  | cons h t ih =>
      by_cases hp : p h <;> simp [List.filter, hp, ih]

theorem foldl_skip_append (p : α → Bool) (g : α → β) (l : List α) (acc : List β) :
    l.foldl (fun a x => if p x then a else a ++ [g x]) acc =
      acc ++ (l.filter (fun x => !p x)).map g := by
  induction l generalizing acc with
  | nil => simp
  | cons h t ih =>
      by_cases hp : p h <;> simp [List.filter, hp, ih]

/-! ### Projection lemmas for `computeScores` -/

theorem computeScores_rischioInerente (env : Env) (s : UIState) :
    (computeScores env s).rischioInerente =
      ((env.prestazioniVeda.find? (fun p => p.1 == s.comboPrestazione)).map (·.2)).getD 2 := by
  unfold computeScores
  split <;> rfl

theorem computeScores_totalA (env : Env) (s : UIState) :
    (computeScores env s).totalA =
      (calcolaTotaleSezioni s.sectionVarsAManual (getAutomaticSectionsA env s)).1 := by
  unfold computeScores
  split <;> rfl

theorem computeScores_somma (env : Env) (s : UIState) :
    (computeScores env s).somma =
      pyRound 2 (pyRound 2 (((computeScores env s).rischioInerente : ℚ) * (3/10))
        + pyRound 2 ((computeScores env s).rischioSpecifico * (7/10))) := by
  unfold computeScores
  split <;> rfl

theorem computeScores_livello (env : Env) (s : UIState) :
    (computeScores env s).livello = calcolaLivelloRischio (computeScores env s).somma := by
  unfold computeScores
  split <;> rfl

theorem computeScores_not_solo (env : Env) (s : UIState)
    (h : usaSoloTabellaA env s = false) :
    (computeScores env s).rischioSpecifico =
      pyRound 2 (((computeScores env s).totalA + (computeScores env s).totalB) / 10)
    ∧ (computeScores env s).totalB =
        (calcolaTotaleSezioni s.sectionVarsBManual (getAutomaticSectionsB env s)).1 := by
  unfold computeScores
  rw [h]
  exact ⟨rfl, rfl⟩

theorem computeScores_solo (env : Env) (s : UIState)
    (h : usaSoloTabellaA env s = true) :
    (computeScores env s).sectionsBAuto = []
    ∧ (computeScores env s).subMediasB = []
    ∧ (computeScores env s).totalB = 0
    ∧ (computeScores env s).numFattoriA =
        (getAutomaticSectionsA env s).length + s.sectionVarsAManual.length
    ∧ (computeScores env s).rischioSpecifico =
        pyRound 2 ((computeScores env s).totalA /
          (((getAutomaticSectionsA env s).length + s.sectionVarsAManual.length : ℕ) : ℚ)) := by
  unfold computeScores
  rw [h]
  exact ⟨rfl, rfl, rfl, rfl, rfl⟩

/-! ### Claim theorems -/

/-- C7: `levelFromAmount` is the pure step function <50000 → 1,
<250000 → 2, <1000000 → 3, else 4, each lower bound inclusive of the
higher band; in particular 49999.99 → 1, 50000 → 2, 249999.99 → 2,
250000 → 3, 999999.99 → 3 and 1000000 → 4. -/
theorem c7_level_from_amount :
    (∀ importo : ℚ,
      (importo < 50000 → calcolaLivelloDaImporto importo = 1)
      ∧ (50000 ≤ importo → importo < 250000 → calcolaLivelloDaImporto importo = 2)
      ∧ (250000 ≤ importo → importo < 1000000 → calcolaLivelloDaImporto importo = 3)
      ∧ (1000000 ≤ importo → calcolaLivelloDaImporto importo = 4))
    ∧ calcolaLivelloDaImporto 49999.99 = 1 ∧ calcolaLivelloDaImporto 50000 = 2
    ∧ calcolaLivelloDaImporto 249999.99 = 2 ∧ calcolaLivelloDaImporto 250000 = 3
    ∧ calcolaLivelloDaImporto 999999.99 = 3 ∧ calcolaLivelloDaImporto 1000000 = 4 := by
  refine ⟨fun importo => ⟨?_, ?_, ?_, ?_⟩, ?_, ?_, ?_, ?_, ?_, ?_⟩ <;>
    · intros
      unfold calcolaLivelloDaImporto
      split_ifs <;> first | rfl | (norm_num; try linarith)

/-- Witness for C7: the general step-function characterization applied
at 0, 100000, 500000 and 2000000. -/
theorem c7_level_from_amount_witness :
    ((0:ℚ) < 50000 ∧ calcolaLivelloDaImporto 0 = 1)
    ∧ ((50000:ℚ) ≤ 100000 ∧ (100000:ℚ) < 250000 ∧ calcolaLivelloDaImporto 100000 = 2)
    ∧ ((250000:ℚ) ≤ 500000 ∧ (500000:ℚ) < 1000000 ∧ calcolaLivelloDaImporto 500000 = 3)
    ∧ ((1000000:ℚ) ≤ 2000000 ∧ calcolaLivelloDaImporto 2000000 = 4) :=
  ⟨⟨by norm_num, (c7_level_from_amount.1 0).1 (by norm_num)⟩,
   ⟨by norm_num, by norm_num, (c7_level_from_amount.1 100000).2.1 (by norm_num) (by norm_num)⟩,
   ⟨by norm_num, by norm_num, (c7_level_from_amount.1 500000).2.2.1 (by norm_num) (by norm_num)⟩,
   ⟨by norm_num, (c7_level_from_amount.1 2000000).2.2.2 (by norm_num)⟩⟩

/-- C6: `cerca_natura_giuridica` coincides with the specification's
description of `searchNature`: sub-2-character trimmed case-folded
queries give no result; otherwise the registry-containment and
client-registry-containment tiers are always both evaluated and merged,
the keyword tier (levels 1→4, first keyword occurring inside the query,
at most one synthetic suggestion) applies only when the merge is empty,
and the result is sorted by (isClientRegistry, level-with-null-as-999,
name) and truncated to 10. -/
theorem c6_search_nature (env : Env) (testo : String) :
    cercaNaturaGiuridica env testo = searchNatureSpec env testo := by
  unfold cercaNaturaGiuridica searchNatureSpec
    registryMatchesSpec clientMatchesSpec keywordFallbackSpec
  simp only [foldl_if_append, List.nil_append]

/-- C5: each of the three B.3 aggravating check-boxes adds +1 to the
displayed final level, capped at 4, but the value is informational only:
the scored B.3 level handed to the Section-B aggregation is the
unadjusted base level from the amount, and neither the automatic
B-sections nor any computed score depends on the check-box state. -/
theorem c5_b3_aggravanti (env : Env) (s : UIState) (b1 b2 b3 : Bool) :
    computeScores env
        { s with checkB3Incongruo := b1, checkB3Frazionamenti := b2, checkB3Altro := b3 }
      = computeScores env s
    ∧ getAutomaticSectionsB env
        { s with checkB3Incongruo := b1, checkB3Frazionamenti := b2, checkB3Altro := b3 }
      = getAutomaticSectionsB env s
    ∧ (∀ im, s.entryImporto = some im →
        ((getAutomaticSectionsB env s).head?.map AutoSection.level
            = some (calcolaLivelloDaImporto im))
        ∧ b3LivelloFinale
            { s with checkB3Incongruo := b1, checkB3Frazionamenti := b2, checkB3Altro := b3 }
          = some (min (calcolaLivelloDaImporto im
              + ((if b1 then 1 else 0) + (if b2 then 1 else 0) + (if b3 then 1 else 0))) 4)) := by
  refine ⟨rfl, rfl, fun im him => ⟨?_, ?_⟩⟩
  · simp [getAutomaticSectionsB, him]
  · simp [b3LivelloFinale, him]

/-- Witness for C5: with amount 80000 and only the first aggravating
check-box set, the displayed final level is the capped base-plus-one
while the scored B.3 level stays the base level 2. -/
theorem c5_b3_aggravanti_witness :
    uiB3.entryImporto = some 80000
    ∧ (getAutomaticSectionsB envW uiB3).head?.map AutoSection.level
        = some (calcolaLivelloDaImporto 80000)
    ∧ b3LivelloFinale
        { uiB3 with
          checkB3Incongruo := true, checkB3Frazionamenti := false,
          checkB3Altro := false }
      = some (min (calcolaLivelloDaImporto 80000
          + ((if true then 1 else 0) + (if false then 1 else 0) + (if false then 1 else 0))) 4) := by
  have h := (c5_b3_aggravanti envW uiB3 true false false).2.2 80000 rfl
  exact ⟨rfl, h.1, h.2⟩

/-- C8: the A.1 "fattori soggettivi" group never influences a computed
score — two input states differing only in those check-boxes and levels
yield the same `Scores` value (hence the same totalA, specificRisk,
weightedSum and band) — and the manual A-section list that feeds the
aggregation is built skipping every definition whose name contains
"A.1". -/
theorem c8_a1_noninterference (env : Env) (s : UIState) (v : List Bool) (l : List ℕ) :
    computeScores env { s with a1ManualVars := v, a1ManualLevelVars := l }
      = computeScores env s
    ∧ (∀ sec ∈ createSectionPanelA env, hasSub "A.1" sec.name = false)
    ∧ (∀ d, a1ManualGroupDef env = some d → startsWithStr "A.1" d.1 = true) := by
  refine ⟨rfl, ?_, ?_⟩
  · intro sec hsec
    unfold createSectionPanelA at hsec
    rw [foldl_skip_append, List.nil_append] at hsec
    obtain ⟨d, hd, rfl⟩ := List.mem_map.1 hsec
    have := (List.mem_filter.1 hd).2
    simpa using this
  · intro d hd
    unfold a1ManualGroupDef at hd
    have := List.find?_some hd
    simpa using this

/-- Witness for C8: with one A.1 definition and one A.2 definition
configured, the section the built panel list does contain (the A.2 one)
has no "A.1" in its name, and the A.1 group definition found for the
hybrid panel starts with "A.1". -/
theorem c8_a1_noninterference_witness :
    (⟨"A.2 - Comportamento", ["f2"], [false], [1]⟩ : SectionState) ∈ createSectionPanelA envW
    ∧ hasSub "A.1" "A.2 - Comportamento" = false
    ∧ a1ManualGroupDef envW = some ("A.1 - Natura giuridica", ["f1"])
    ∧ startsWithStr "A.1" "A.1 - Natura giuridica" = true := by
  refine ⟨by decide, ?_, by decide, ?_⟩
  · exact (c8_a1_noninterference envW uiBlank [] []).2.1
      ⟨"A.2 - Comportamento", ["f2"], [false], [1]⟩ (by decide)
  · exact (c8_a1_noninterference envW uiBlank [] []).2.2
      ("A.1 - Natura giuridica", ["f1"]) (by decide)

/-- C1: in standard mode the specific risk is
`round((totalA + totalB) / 10, 2)` with the fixed constant divisor 10,
for every configuration and input state. -/
theorem c1_standard_divisor (env : Env) (s : UIState)
    (h : usaSoloTabellaA env s = false) :
    (computeScores env s).rischioSpecifico =
      pyRound 2 (((computeScores env s).totalA + (computeScores env s).totalB) / 10) :=
  (computeScores_not_solo env s h).1

/-- Witness for C1: the fixture service "Consulenza" is not
table-A-only and the standard divisor-10 formula applies. -/
theorem c1_standard_divisor_witness :
    usaSoloTabellaA envW uiW = false
    ∧ (computeScores envW uiW).rischioSpecifico =
        pyRound 2 (((computeScores envW uiW).totalA + (computeScores envW uiW).totalB) / 10) :=
  ⟨by decide, c1_standard_divisor envW uiW (by decide)⟩

/-- C2: in table-A-only mode no Section-B evaluation occurs (no
automatic B-sections, no B sub-averages, totalB = 0) and the specific
risk is `round(totalA / countA, 2)` where countA is the number of
automatic A-sections (always 2) plus the number of manual A-section
panels — which, when the panels are as built from the configuration,
is 2 plus the number of manual A-section definitions without "A.1" in
their name: a count of sections, not of factors. -/
theorem c2_table_a_only (env : Env) (s : UIState)
    (h : usaSoloTabellaA env s = true) :
    (computeScores env s).sectionsBAuto = []
    ∧ (computeScores env s).subMediasB = []
    ∧ (computeScores env s).totalB = 0
    ∧ (computeScores env s).numFattoriA =
        (getAutomaticSectionsA env s).length + s.sectionVarsAManual.length
    ∧ (getAutomaticSectionsA env s).length = 2
    ∧ (computeScores env s).rischioSpecifico =
        pyRound 2 ((computeScores env s).totalA / ((computeScores env s).numFattoriA : ℚ))
    ∧ (s.sectionVarsAManual = createSectionPanelA env →
        (computeScores env s).numFattoriA =
          2 + (env.sectionsAManualDef.filter (fun d => !(hasSub "A.1" d.1))).length) := by
  obtain ⟨h1, h2, h3, h4, h5⟩ := computeScores_solo env s h
  have hlen : (getAutomaticSectionsA env s).length = 2 := by
    unfold getAutomaticSectionsA
    rfl
  refine ⟨h1, h2, h3, h4, hlen, ?_, ?_⟩
  · rw [h5, h4]
  · intro hbuilt
    rw [h4, hlen, hbuilt, createSectionPanelA, foldl_skip_append, List.nil_append,
      List.length_map]

/-- Witness for C2: the fixture table-A-only service with the built
manual panel list gives countA = 2 automatic sections + 1 manual
section. -/
theorem c2_table_a_only_witness :
    usaSoloTabellaA envW uiSoloM = true
    ∧ uiSoloM.sectionVarsAManual = createSectionPanelA envW
    ∧ (computeScores envW uiSoloM).totalB = 0
    ∧ (computeScores envW uiSoloM).numFattoriA =
        2 + (envW.sectionsAManualDef.filter (fun d => !(hasSub "A.1" d.1))).length := by
  refine ⟨by decide, rfl, ?_, ?_⟩
  · exact (c2_table_a_only envW uiSoloM (by decide)).2.2.1
  · exact (c2_table_a_only envW uiSoloM (by decide)).2.2.2.2.2.2 rfl

/-- C4: for every evaluation the weighted sum equals
`round(inherentRisk*0.3 + specificRisk*0.7, 2)`; and in the concrete
scenario (baseline 3, standard mode, totalA = 8.0, totalB = 6.0) the
specific risk is 1.40 and the weighted sum is 1.88 with the
not-significant band. -/
theorem c4_weighted_sum (env : Env) (s : UIState) :
    (computeScores env s).somma =
      pyRound 2 (((computeScores env s).rischioInerente : ℚ) * (3/10)
        + (computeScores env s).rischioSpecifico * (7/10))
    ∧ (usaSoloTabellaA env s = false →
        (computeScores env s).rischioInerente = 3 →
        (computeScores env s).totalA = 8 →
        (computeScores env s).totalB = 6 →
        (computeScores env s).rischioSpecifico = 1.40
        ∧ (computeScores env s).somma = 1.88
        ∧ (computeScores env s).livello =
            "BASSO/POCO SIGNIFICATIVO - Adeguata Verifica Semplificata") := by
  constructor
  · rw [computeScores_somma, somma_round_eq]
  · intro hstd hri htA htB
    have hrs : (computeScores env s).rischioSpecifico = 1.40 := by
      rw [(computeScores_not_solo env s hstd).1, htA, htB]
      norm_num [pyRound, rhe]
    have hsom : (computeScores env s).somma = 1.88 := by
      rw [computeScores_somma, hri, hrs]
      norm_num [pyRound, rhe]
    refine ⟨hrs, hsom, ?_⟩
    rw [computeScores_livello, hsom]
    norm_num [calcolaLivelloRischio]

/-- Witness for C4: the fixture standard-mode evaluation has baseline 3,
totalA = 8.0 and totalB = 6.0, so its specific risk is 1.40, its
weighted sum 1.88, and its band the not-significant one. -/
theorem c4_weighted_sum_witness :
    usaSoloTabellaA envW uiW = false
    ∧ (computeScores envW uiW).rischioInerente = 3
    ∧ (computeScores envW uiW).totalA = 8
    ∧ (computeScores envW uiW).totalB = 6
    ∧ (computeScores envW uiW).rischioSpecifico = 1.40
    ∧ (computeScores envW uiW).somma = 1.88
    ∧ (computeScores envW uiW).livello =
        "BASSO/POCO SIGNIFICATIVO - Adeguata Verifica Semplificata" := by
  have hri : (computeScores envW uiW).rischioInerente = 3 := by
    rw [computeScores_rischioInerente]
    decide
  have hautoA : getAutomaticSectionsA envW uiW =
      [⟨"A.1 - Natura giuridica", "Trust Co Srl (Trust ad alto rischio)", 4⟩,
       ⟨"A.4 - Area geografica cliente", "Roma", 4⟩] := by
    decide
  have hautoB : getAutomaticSectionsB envW uiW =
      [⟨"B.3 - Ammontare operazione", "€ (> €1.000.000)", 4⟩,
       ⟨"B.6 - Area geografica destinazione", "Parigi", 2⟩] := by
    decide
  have htA : (computeScores envW uiW).totalA = 8 := by
    rw [computeScores_totalA, hautoA]
    norm_num [calcolaTotaleSezioni, uiW, uiBlank]
  have htB : (computeScores envW uiW).totalB = 6 := by
    rw [(computeScores_not_solo envW uiW (by decide)).2, hautoB]
    norm_num [calcolaTotaleSezioni, uiW, uiBlank]
  have h := (c4_weighted_sum envW uiW).2 (by decide) hri htA htB
  exact ⟨by decide, hri, htA, htB, h.1, h.2.1, h.2.2⟩

theorem one_le_calcolaLivelloDaImporto (importo : ℚ) :
    1 ≤ calcolaLivelloDaImporto importo := by
  unfold calcolaLivelloDaImporto
  split_ifs <;> norm_num

theorem one_le_naturaLevelDesc (env : Env) (t c : String) :
    1 ≤ (naturaLevelDesc env t c).1 := by
  unfold naturaLevelDesc
  split_ifs with h
  · norm_num
  · omega

/-- C9: the geography sentinel 0 never reaches a total — an empty or
unmatched A.4/B.6 geography scores level 1, every automatic A-section
level is at least 1, and among the automatic sections only an
unspecified amount (B.3) can contribute a level 0. -/
theorem c9_geo_sentinel (env : Env) (s : UIState) :
    (∀ sec ∈ getAutomaticSectionsA env s, 1 ≤ sec.level)
    ∧ ((trimStr s.entryAreaCliente = ""
          ∨ getLivelloPaese env (trimStr s.entryAreaCliente) = 0) →
        ∀ sec ∈ getAutomaticSectionsA env s,
          sec.name = "A.4 - Area geografica cliente" → sec.level = 1)
    ∧ ((trimStr s.entryAreaDestinazione = ""
          ∨ getLivelloPaese env (trimStr s.entryAreaDestinazione) = 0) →
        ∀ sec ∈ getAutomaticSectionsB env s,
          sec.name = "B.6 - Area geografica destinazione" → sec.level = 1)
    ∧ (∀ sec ∈ getAutomaticSectionsB env s,
        sec.level = 0 → sec.name = "B.3 - Ammontare operazione" ∧ s.entryImporto = none) := by
  refine ⟨?_, ?_, ?_, ?_⟩
  · intro sec hsec
    simp only [getAutomaticSectionsA, List.mem_cons, List.not_mem_nil, or_false] at hsec
    rcases hsec with rfl | rfl
    · exact one_le_naturaLevelDesc env _ _
    · split_ifs <;> dsimp only <;> omega
  · intro _ sec hsec hname
    simp only [getAutomaticSectionsA, List.mem_cons, List.not_mem_nil, or_false] at hsec
    rcases hsec with rfl | rfl
    · dsimp only at hname
      exact absurd hname (by decide)
    · split_ifs with h1 h2
      · rfl
      · rename_i hgeo
        rcases hgeo with hgeo | hgeo
        · exact absurd hgeo h1
        · exact absurd hgeo h2
      · rfl
  · intro _ sec hsec hname
    simp only [getAutomaticSectionsB, List.mem_cons, List.not_mem_nil, or_false] at hsec
    rcases hsec with rfl | rfl
    · rcases hx : s.entryImporto with _ | im <;>
        · simp only [hx] at hname
          exact absurd hname (by decide)
    · split_ifs with h1 h2
      · rfl
      · rename_i hgeo
        rcases hgeo with hgeo | hgeo
        · exact absurd hgeo h1
        · exact absurd hgeo h2
      · rfl
  · intro sec hsec hlvl
    simp only [getAutomaticSectionsB, List.mem_cons, List.not_mem_nil, or_false] at hsec
    rcases hsec with rfl | rfl
    · rcases hx : s.entryImporto with _ | im
      · simp [hx]
      · simp only [hx] at hlvl
        have := one_le_calcolaLivelloDaImporto im
        omega
    · split_ifs at hlvl
      all_goals dsimp only at hlvl
      all_goals omega

/-- Witness for C9: with the blank snapshot the client geography is
empty, and the automatic A.4 section is scored at level 1. -/
theorem c9_geo_sentinel_witness :
    trimStr uiBlank.entryAreaCliente = ""
    ∧ (⟨"A.4 - Area geografica cliente", "Non specificato", 1⟩ : AutoSection)
        ∈ getAutomaticSectionsA envW uiBlank
    ∧ (⟨"A.4 - Area geografica cliente", "Non specificato", 1⟩ : AutoSection).level = 1 := by
  refine ⟨by decide, by decide, ?_⟩
  exact (c9_geo_sentinel envW uiBlank).2.1 (Or.inl (by decide))
    ⟨"A.4 - Area geografica cliente", "Non specificato", 1⟩ (by decide) rfl

/-- C10: when the entity text matches no registry entry by containment,
matches no keyword, and no manual category is selected, the automatic
A.1 section gets the default level 3 with the verify-manually
descriptor, and that 3 enters totalA. -/
theorem c10_default_level (env : Env) (s : UIState)
    (h1 : env.database.find?
        (fun e => hasSub (lowerStr e.1) (lowerStr (trimStr s.entryNaturaGiuridica))) = none)
    (h2 : (keywordLevels env).find?
        (fun p => p.2.any (fun kw => hasSub kw (lowerStr (trimStr s.entryNaturaGiuridica)))) = none)
    (h3 : s.comboNaturaFallback = "") :
    naturaLevelDesc env (trimStr s.entryNaturaGiuridica) s.comboNaturaFallback
      = (3, "Livello default - verificare manualmente")
    ∧ (getAutomaticSectionsA env s).head?.map AutoSection.level = some 3
    ∧ (getAutomaticSectionsA env s).head?.map AutoSection.value
        = some (trimStr s.entryNaturaGiuridica ++ " (Livello default - verificare manualmente)")
    ∧ (computeScores env s).totalA
        = 3 + (((getAutomaticSectionsA env s).drop 1).map (fun a => (a.level : ℚ))).sum
          + (s.sectionVarsAManual.map calcolaMediaSezione).sum := by
  have hd0 : naturaD0 env (trimStr s.entryNaturaGiuridica) = (0, "") := by
    unfold naturaD0
    rw [h1]
  have hd1 : naturaD1 env (trimStr s.entryNaturaGiuridica) = (0, "") := by
    unfold naturaD1
    rw [hd0, h2]
    simp
  have hd2 : naturaD2 env (trimStr s.entryNaturaGiuridica) s.comboNaturaFallback = (0, "") := by
    unfold naturaD2
    rw [hd1]
    simp [h3]
  have hnd : naturaLevelDesc env (trimStr s.entryNaturaGiuridica) s.comboNaturaFallback
      = (3, "Livello default - verificare manualmente") := by
    unfold naturaLevelDesc
    rw [hd2]
    simp
  have hne : ("Livello default - verificare manualmente" : String) ≠ "" := by decide
  have happ : ∀ t : String,
      t ++ " (" ++ "Livello default - verificare manualmente" ++ ")"
        = t ++ " (Livello default - verificare manualmente)" := by
    intro t
    rw [String.append_assoc, String.append_assoc]
    congr 1
  refine ⟨hnd, ?_, ?_, ?_⟩
  · simp [getAutomaticSectionsA, hnd]
  · simp [getAutomaticSectionsA, hnd, hne, happ]
  · rw [computeScores_totalA]
    unfold calcolaTotaleSezioni
    simp only [getAutomaticSectionsA, hnd, List.map_cons, List.drop_succ_cons,
      List.drop_zero, List.sum_cons]
    push_cast
    ring

/-- Witness for C10: the blank snapshot matches nothing in the fixture
configuration, so A.1 defaults to level 3 and totalA is 3 plus the A.4
level. -/
theorem c10_default_level_witness :
    envW.database.find?
        (fun e => hasSub (lowerStr e.1) (lowerStr (trimStr uiBlank.entryNaturaGiuridica))) = none
    ∧ (keywordLevels envW).find?
        (fun p => p.2.any (fun kw => hasSub kw (lowerStr (trimStr uiBlank.entryNaturaGiuridica)))) = none
    ∧ uiBlank.comboNaturaFallback = ""
    ∧ (getAutomaticSectionsA envW uiBlank).head?.map AutoSection.level = some 3 := by
  refine ⟨by decide, by decide, by decide, ?_⟩
  exact (c10_default_level envW uiBlank (by decide) (by decide) (by decide)).2.1

theorem runGate_cons (st : GateState) (e : GateEvent) (t : List GateEvent) :
    runGate st (e :: t) = runGate (gateStep st e) t := rfl

theorem runGate_aborted (events : List GateEvent) :
    runGate .aborted events = .aborted := by
  induction events with
  | nil => rfl
  | cons e t ih =>
      rw [runGate_cons]
      have hstep : gateStep .aborted e = .aborted := by cases e <;> rfl
      rw [hstep]
      exact ih

theorem runGate_accepted_mem (events : List GateEvent)
    (h : runGate .pending events = .accepted) : GateEvent.confermaClick true ∈ events := by
  induction events with
  | nil => exact absurd h (by decide)
  | cons e t ih =>
      rw [runGate_cons] at h
      cases e with
      | confermaClick c =>
          cases c
          · exact List.mem_cons_of_mem _ (ih h)
          · exact List.mem_cons_self _ _
      | annullaClick c =>
          cases c
          · exact List.mem_cons_of_mem _ (ih h)
          · rw [show gateStep .pending (.annullaClick true) = .aborted from rfl,
              runGate_aborted] at h
            exact absurd h (by decide)
      | chiusuraX c =>
          cases c
          · exact List.mem_cons_of_mem _ (ih h)
          · rw [show gateStep .pending (.chiusuraX true) = .aborted from rfl,
              runGate_aborted] at h
            exact absurd h (by decide)

/-- C3: above the 3.5 threshold the gate starts pending; a stored
(exportable) result exists only with a declaration whose `accepted` is
true, only after an explicit affirmative acknowledgement event, an
empty interaction trace finalizes nothing, and every non-confirmed
dismissal (confirm without the checkbox, cancel or close answered "no")
re-enters the pending state. -/
theorem c3_escalation_gate (env : Env) (s : UIState) (events : List GateEvent)
    (hsum : (computeScores env s).somma > 7/2) :
    (∀ d, valutaRischio env s events = some d →
        d.dichiarazioneRafforzata =
          some ⟨true, (computeScores env s).somma, (computeScores env s).livello⟩)
    ∧ ((valutaRischio env s events).isSome → GateEvent.confermaClick true ∈ events)
    ∧ valutaRischio env s [] = none
    ∧ (∀ e, gateStep .pending e = .pending ↔
        (e = .confermaClick false ∨ e = .annullaClick false ∨ e = .chiusuraX false)) := by
  refine ⟨?_, ?_, ?_, ?_⟩
  · intro d hd
    unfold valutaRischio at hd
    by_cases h1 : trimStr s.entryData = ""
    · rw [if_pos h1] at hd
      exact absurd hd (by simp)
    · rw [if_neg h1] at hd
      by_cases h2 : trimStr s.entryCliente = ""
      · rw [if_pos h2] at hd
        exact absurd hd (by simp)
      · rw [if_neg h2, if_pos hsum] at hd
        unfold mostraDialogRischioRafforzato at hd
        cases hrun : runGate .pending events with
        | pending => rw [hrun] at hd; exact absurd hd (by simp)
        | aborted => rw [hrun] at hd; exact absurd hd (by simp)
        | accepted =>
            rw [hrun] at hd
            simp only [Option.some.injEq] at hd
            subst hd
            rfl
  · intro hsome
    unfold valutaRischio at hsome
    by_cases h1 : trimStr s.entryData = ""
    · rw [if_pos h1] at hsome
      exact absurd hsome (by simp)
    · rw [if_neg h1] at hsome
      by_cases h2 : trimStr s.entryCliente = ""
      · rw [if_pos h2] at hsome
        exact absurd hsome (by simp)
      · rw [if_neg h2, if_pos hsum] at hsome
        unfold mostraDialogRischioRafforzato at hsome
        cases hrun : runGate .pending events with
        | pending => rw [hrun] at hsome; exact absurd hsome (by simp)
        | aborted => rw [hrun] at hsome; exact absurd hsome (by simp)
        | accepted => exact runGate_accepted_mem events hrun
  · unfold valutaRischio
    by_cases h1 : trimStr s.entryData = ""
    · rw [if_pos h1]
    · rw [if_neg h1]
      by_cases h2 : trimStr s.entryCliente = ""
      · rw [if_pos h2]
      · rw [if_neg h2, if_pos hsum]
        rfl
  · intro e
    cases e with
    | confermaClick c => cases c <;> simp [gateStep]
    | annullaClick c => cases c <;> simp [gateStep]
    | chiusuraX c => cases c <;> simp [gateStep]

/-- Witness for C3: the fixture table-A-only evaluation scores a
weighted sum of 4.0 > 3.5; a trace with the affirmative acknowledgement
finalizes with an accepted declaration, the empty trace finalizes
nothing, and the dismissal events re-enter the pending state. -/
theorem c3_escalation_gate_witness :
    (computeScores envW uiSolo).somma > 7/2
    ∧ (∀ d, valutaRischio envW uiSolo [GateEvent.confermaClick true] = some d →
        d.dichiarazioneRafforzata =
          some ⟨true, (computeScores envW uiSolo).somma, (computeScores envW uiSolo).livello⟩)
    ∧ ((valutaRischio envW uiSolo [GateEvent.confermaClick true]).isSome →
        GateEvent.confermaClick true ∈ [GateEvent.confermaClick true])
    ∧ valutaRischio envW uiSolo [] = none
    ∧ (∀ e, gateStep .pending e = .pending ↔
        (e = .confermaClick false ∨ e = .annullaClick false ∨ e = .chiusuraX false)) := by
  have hri : (computeScores envW uiSolo).rischioInerente = 4 := by
    rw [computeScores_rischioInerente]
    decide
  have hautoA : getAutomaticSectionsA envW uiSolo =
      [⟨"A.1 - Natura giuridica", "Trust Co Srl (Trust ad alto rischio)", 4⟩,
       ⟨"A.4 - Area geografica cliente", "Roma", 4⟩] := by
    decide
  have htA : (computeScores envW uiSolo).totalA = 8 := by
    rw [computeScores_totalA, hautoA]
    norm_num [calcolaTotaleSezioni, uiSolo, uiW, uiBlank]
  have hlen : (getAutomaticSectionsA envW uiSolo).length
      + uiSolo.sectionVarsAManual.length = 2 := by
    decide
  have hrs : (computeScores envW uiSolo).rischioSpecifico = 4 := by
    rw [(computeScores_solo envW uiSolo (by decide)).2.2.2.2, htA, hlen]
    norm_num [pyRound, rhe]
  have hsom : (computeScores envW uiSolo).somma = 4 := by
    rw [computeScores_somma, hri, hrs]
    norm_num [pyRound, rhe]
  have hsum : (computeScores envW uiSolo).somma > 7/2 := by
    rw [hsom]
    norm_num
  have h := c3_escalation_gate envW uiSolo [GateEvent.confermaClick true] hsum
  exact ⟨hsum, h.1, h.2.1, h.2.2.1, h.2.2.2⟩

end AML
